import Mathlib

/-!
Verification of the Spotify likes-sync program (`src/sync.ts`) against its
natural-language specification.

The TypeScript source is shallowly embedded: every network call is modelled
by a `FetchOutcome` oracle value (what the single bounded HTTP request came
back with), environment variables are `Option String` inputs, JSON payloads
are a `Json` inductive, and each source function becomes a pure Lean
function of those inputs.  `main` is modelled as a function from its world
inputs to a `RunOutcome` trace recording the exit code and every write call
it issued (with the exact bodies).
-/

namespace Spotwik

/-- Models JavaScript string falsiness for `string | undefined` values:
`!x` is true exactly for `undefined` and the empty string. -/
def jsFalsy : Option String → Bool
  | none => true
  | some s => s = ""

/-- Models `String.prototype.trim` at the character-list level. -/
def jsTrim (s : String) : String :=
  String.mk (((s.data.dropWhile Char.isWhitespace).reverse.dropWhile Char.isWhitespace).reverse)

/-- Models `a.startsWith(b)` for JavaScript strings. -/
def jsStartsWith (s pre : String) : Bool :=
  List.isPrefixOf pre.data s.data

/-- Models the `!playlistId || playlistId.trim() === ''` guard used by every
playlist operation in `sync.ts`. -/
def playlistIdBlank (playlistId : Option String) : Bool :=
  match playlistId with
  | none => true
  | some s => s = "" || jsTrim s = ""

/-- Models `parseInt(s, 10)`: skip leading whitespace, read an optional
sign, then the longest prefix of decimal digits; `none` models `NaN`. -/
def parseIntBase10 (s : String) : Option Int :=
  let chars := s.data.dropWhile Char.isWhitespace
  let signAndRest : Int × List Char :=
    match chars with
    | '-' :: r => (-1, r)
    | '+' :: r => (1, r)
    | r => (1, r)
  let digits := signAndRest.2.takeWhile Char.isDigit
  if digits = [] then none
  else some (signAndRest.1 * (digits.foldl (fun acc c => acc * 10 + (c.toNat - 48)) 0 : Nat))

/-- Models `s.replace('T', ' ')` (JavaScript `replace` with a string
pattern substitutes only the first occurrence). -/
def replaceFirstT : List Char → List Char
  | [] => []
  | c :: rest => if c = 'T' then ' ' :: rest else c :: replaceFirstT rest

/-- JSON values as delivered by `response.json()`. -/
inductive Json where
  | null
  | bool (b : Bool)
  | num (n : Int)
  | str (s : String)
  | arr (items : List Json)
  | obj (fields : List (String × Json))

/-- Models optional-chaining property access `v?.k`: only objects yield a
field, every other shape yields `undefined`. -/
def jsGet (j : Json) (k : String) : Option Json :=
  match j with
  | .obj fields => lookupField fields
  | _ => none
where
  lookupField : List (String × Json) → Option Json
    | [] => none
    | (k', v) :: rest => if k' = k then some v else lookupField rest

/-- Outcome of one bounded HTTP request, as classified by the source's
try/catch and `response.ok` handling: timeout (abort), transport error, or
a completed response carrying `ok`, the status code, and the body
(`none` models a body that fails to parse as JSON). -/
inductive FetchOutcome where
  | timeout
  | netError
  | completed (ok : Bool) (status : Nat) (body : Option Json)

/-- Embeds `getAccessToken` (sync.ts lines 12-83).  The three credentials
are the `SPOTIFY_CLIENT_ID` / `SPOTIFY_CLIENT_SECRET` / `SPOTIFY_REFRESH_TOKEN`
environment variables; `fetch` is the outcome of the token POST.  Returns
the token result together with a flag recording whether the network call
was reached. -/
def getAccessToken (clientId clientSecret refreshToken : Option String)
    (fetch : FetchOutcome) : Option String × Bool :=
  if jsFalsy clientId || jsFalsy clientSecret || jsFalsy refreshToken then
    (none, false)
  else
    let result : Option String :=
      match fetch with
      | .timeout => none
      | .netError => none
      | .completed ok _ body =>
        if !ok then none
        else
          match body with
          | none => none
          | some data =>
            let accessToken : Option String :=
              match jsGet data "access_token" with
              | some (.str tok) => some tok
              | _ => none
            match accessToken with
            | none => none
            | some tok => if tok = "" || jsTrim tok = "" then none else some tok
    (result, true)

/-- Embeds the `TRACK_COUNT` resolution of `getRecentLikes`
(sync.ts lines 93-100): falsy env defaults to 50, `NaN` or values below 1
default to 50, values above 50 are clamped to 50. -/
def resolvedTrackCount (trackCountEnv : Option String) : Int :=
  let parsed : Option Int :=
    match trackCountEnv with
    | none => some 50
    | some s => if s = "" then some 50 else parseIntBase10 s
  let bounded : Int :=
    match parsed with
    | none => 50
    | some n => if n < 1 then 50 else n
  if bounded > 50 then 50 else bounded

/-- Embeds the extraction loop of `getRecentLikes` (sync.ts lines 150-154):
keep `item?.track?.uri` when it is a string starting with
`spotify:track:`, in received order. -/
def extractLikedTrackUris : List Json → List String
  | [] => []
  | item :: rest =>
    let uri : Option Json :=
      match jsGet item "track" with
      | some track => jsGet track "uri"
      | none => none
    match uri with
    | some (.str u) =>
      if jsStartsWith u "spotify:track:" then u :: extractLikedTrackUris rest
      else extractLikedTrackUris rest
    | _ => extractLikedTrackUris rest

/-- Embeds `getRecentLikes` (sync.ts lines 92-157): any of timeout,
transport error, non-ok status, unparseable body, or a missing/non-array
`items` field yields `none`; otherwise the filtered URI list.  The
`TRACK_COUNT` resolution of lines 93-100 is embedded as
`resolvedTrackCount`; it only shapes the request URL's `limit` parameter,
which is part of the `fetch` oracle here. -/
def getRecentLikes (fetch : FetchOutcome) : Option (List String) :=
  match fetch with
  | .timeout => none
  | .netError => none
  | .completed ok _ body =>
    if !ok then none
    else
      match body with
      | none => none
      | some data =>
        match jsGet data "items" with
        | some (.arr items) => some (extractLikedTrackUris items)
        | _ => none

/-- Embeds the extraction loop of `getPlaylistTracks`
(sync.ts lines 216-220), written exactly as the source's own loop. -/
def extractPlaylistTrackUris : List Json → List String
  | [] => []
  | item :: rest =>
    let uri : Option Json :=
      match jsGet item "track" with
      | some track => jsGet track "uri"
      | none => none
    match uri with
    | some (.str u) =>
      if jsStartsWith u "spotify:track:" then u :: extractPlaylistTrackUris rest
      else extractPlaylistTrackUris rest
    | _ => extractPlaylistTrackUris rest

/-- Embeds `getPlaylistTracks` (sync.ts lines 166-224): a blank
`PLAYLIST_ID` or any fetch failure yields `none` (fail-soft). -/
def getPlaylistTracks (playlistId : Option String) (fetch : FetchOutcome) :
    Option (List String) :=
  if playlistIdBlank playlistId then none
  else
    match fetch with
    | .timeout => none
    | .netError => none
    | .completed ok _ body =>
      if !ok then none
      else
        match body with
        | none => none
        | some data =>
          match jsGet data "items" with
          | some (.arr items) => some (extractPlaylistTrackUris items)
          | _ => none

/-- Embeds `updatePlaylist` (sync.ts lines 234-290): false on blank
`PLAYLIST_ID`, timeout, transport error, or a non-ok response; true on a
completed ok response.  The track-URI body does not influence success. -/
def updatePlaylist (playlistId : Option String) (fetch : FetchOutcome) : Bool :=
  if playlistIdBlank playlistId then false
  else
    match fetch with
    | .timeout => false
    | .netError => false
    | .completed ok _ _ => ok

/-- Embeds `updatePlaylistTitle` (sync.ts lines 300-346); same success
classification as `updatePlaylist`, failure non-fatal to the caller. -/
def updatePlaylistTitle (playlistId : Option String) (fetch : FetchOutcome) : Bool :=
  if playlistIdBlank playlistId then false
  else
    match fetch with
    | .timeout => false
    | .netError => false
    | .completed ok _ _ => ok

/-- Embeds `updatePlaylistDescription` (sync.ts lines 356-402). -/
def updatePlaylistDescription (playlistId : Option String) (fetch : FetchOutcome) : Bool :=
  if playlistIdBlank playlistId then false
  else
    match fetch with
    | .timeout => false
    | .netError => false
    | .completed ok _ _ => ok

/-- Extraction rule as the specification states it (section 4.3): an item's
reference is its nested `track.uri`; keep it exactly when it is a string
beginning with the track-namespace prefix `spotify:track:`, silently
dropping every other shape and preserving the received order. -/
def specExtractReferences (items : List Json) : List String :=
  items.filterMap (fun item =>
    match (jsGet item "track").bind (fun track => jsGet track "uri") with
    | some (.str u) => if jsStartsWith u "spotify:track:" then some u else none
    | _ => none)

/-- Lower-case hexadecimal digit, as produced by JavaScript's JSON string
escapes. -/
def hexDig (n : Nat) : Char :=
  if n < 10 then Char.ofNat (48 + n) else Char.ofNat (87 + n)

/-- Character escaping of `JSON.stringify` for string values: quote and
backslash get two-character escapes, the named control characters get
their short escapes, remaining control characters get `\u00xx`, and
everything else is emitted verbatim. -/
def escChar (c : Char) : List Char :=
  if c = '"' then ['\\', '"']
  else if c = '\\' then ['\\', '\\']
  else if c = '\x08' then ['\\', 'b']
  else if c = '\x0c' then ['\\', 'f']
  else if c = '\n' then ['\\', 'n']
  else if c = '\r' then ['\\', 'r']
  else if c = '\t' then ['\\', 't']
  else if c.toNat < 32 then
    ['\\', 'u', '0', '0', hexDig (c.toNat / 16), hexDig (c.toNat % 16)]
  else [c]

/-- Escapes a whole character sequence. -/
def escChars : List Char → List Char
  | [] => []
  | c :: rest => escChar c ++ escChars rest

/-- A JSON string literal: quoted, escaped contents. -/
def quoteStr (s : String) : List Char :=
  '"' :: (escChars s.data ++ ['"'])

/-- Comma-separated JSON string literals, as inside a stringified array. -/
def encodeItems : List String → List Char
  | [] => []
  | [s] => quoteStr s
  | s :: s' :: rest => quoteStr s ++ (',' :: encodeItems (s' :: rest))

/-- Models `JSON.stringify` applied to an array of strings, as used by the
idempotency comparison in `main` (sync.ts line 448). -/
def jsonStringifyStrings (l : List String) : String :=
  String.mk ('[' :: (encodeItems l ++ [']']))

/-- Value of a lower-case hexadecimal digit character; partial inverse of
`hexDig` used only to state the escape round-trip. -/
def hexVal (h : Char) : Nat :=
  if h.toNat ≤ 57 then h.toNat - 48 else h.toNat - 87

/-- Decodes one escaped character of a JSON string literal; the left
inverse of `escChar` used to prove the stringify comparison injective. -/
def unescape1 : List Char → Option (Char × List Char)
  | '\\' :: rest =>
    match rest with
    | '"' :: r => some ('"', r)
    | '\\' :: r => some ('\\', r)
    | 'b' :: r => some ('\x08', r)
    | 'f' :: r => some ('\x0c', r)
    | 'n' :: r => some ('\n', r)
    | 'r' :: r => some ('\r', r)
    | 't' :: r => some ('\t', r)
    | 'u' :: _ :: _ :: h :: l :: r => some (Char.ofNat (16 * hexVal h + hexVal l), r)
    | _ => none
  | c :: rest => some (c, rest)
  | [] => none

/-- Environment-variable configuration read by `sync.ts`. -/
structure Env where
  clientId : Option String
  clientSecret : Option String
  refreshToken : Option String
  trackCount : Option String
  playlistId : Option String
deriving DecidableEq

/-- The world one run of `main` observes: the outcome of each of the six
possible HTTP requests, plus the current time's ISO-8601 rendering
(`new Date().toISOString()`). -/
structure World where
  tokenFetch : FetchOutcome
  likesFetch : FetchOutcome
  playlistFetch : FetchOutcome
  updateFetch : FetchOutcome
  titleFetch : FetchOutcome
  descFetch : FetchOutcome
  nowIso : String

/-- Observable trace of one run of `main`: the exit code, the bodies of all
`updatePlaylist` invocations, the titles and descriptions passed to the
two metadata functions, and the invalid-URI count reported by the
post-fetch validation (when that abort fires). -/
structure RunOutcome where
  exitCode : Nat
  updateCalls : List (List String)
  titleCalls : List String
  descCalls : List String
  invalidReported : Option Nat
deriving DecidableEq

/-- The description string `main` computes (sync.ts line 468):
`new Date().toISOString().replace('T', ' ').substring(0, 19)` wrapped in
the `Checked: ... UTC` label. -/
def checkTimestamp (nowIso : String) : String :=
  "Checked: " ++ String.mk ((replaceFirstT nowIso.data).take 19) ++ " UTC"

/-- Embeds `main` (sync.ts lines 407-473) over the environment and the
world oracle, producing the run's observable trace. -/
def mainRun (env : Env) (w : World) : RunOutcome :=
  match (getAccessToken env.clientId env.clientSecret env.refreshToken w.tokenFetch).1 with
  | none => ⟨1, [], [], [], none⟩
  | some _ =>
    let currentTracks := getPlaylistTracks env.playlistId w.playlistFetch
    match getRecentLikes w.likesFetch with
    | none => ⟨1, [], [], [], none⟩
    | some trackUris =>
      let validTracks := trackUris.filter (fun uri => uri.length > 14)
      if validTracks.length ≠ trackUris.length then
        ⟨1, [], [], [], some (trackUris.length - validTracks.length)⟩
      else if validTracks.length = 0 then
        ⟨0, [], [], [], none⟩
      else
        let needsUpdate : Bool :=
          match currentTracks with
          | none => true
          | some current =>
            decide (jsonStringifyStrings current ≠ jsonStringifyStrings validTracks)
        let playlistTitle := "LAST" ++ toString validTracks.length ++ "LIKED"
        if needsUpdate then
          if updatePlaylist env.playlistId w.updateFetch then
            ⟨0, [validTracks], [playlistTitle], [checkTimestamp w.nowIso], none⟩
          else
            ⟨1, [validTracks], [], [], none⟩
        else
          ⟨0, [], [], [checkTimestamp w.nowIso], none⟩


theorem char_toNat_inj {c d : Char} (h : c.toNat = d.toNat) : c = d :=
  Char.ext (UInt32.toNat.inj h)

theorem hexVal_hexDig : ∀ n < 16, hexVal (hexDig n) = n := by decide

theorem charOfNat_toNat (c : Char) : Char.ofNat c.toNat = c := by
  exact Char.ofNat_toNat c

theorem unescape1_escChar (c : Char) (x : List Char) :
    unescape1 (escChar c ++ x) = some (c, x) := by
  unfold escChar
  split_ifs with h1 h2 h3 h4 h5 h6 h7 h8
  · subst h1; rfl
  · subst h2; rfl
  · subst h3; rfl
  · subst h4; rfl
  · subst h5; rfl
  · subst h6; rfl
  · subst h7; rfl
  · show some (Char.ofNat (16 * hexVal (hexDig (c.toNat / 16)) + hexVal (hexDig (c.toNat % 16))), x) = some (c, x)
    rw [hexVal_hexDig _ (by omega), hexVal_hexDig _ (by omega)]
    rw [show 16 * (c.toNat / 16) + c.toNat % 16 = c.toNat by omega]
    rw [charOfNat_toNat]
  · show unescape1 (c :: x) = some (c, x)
    unfold unescape1
    split
    · next heq => rw [List.cons.injEq] at heq; exact absurd heq.1 h2
    · next heq => rw [List.cons.injEq] at heq; rw [heq.1, heq.2]
    · next heq => simp at heq

theorem escChar_ne_quote (c : Char) (x y : List Char) :
    escChar c ++ x = '"' :: y → False := by
  intro h
  unfold escChar at h
  split_ifs at h <;> simp_all


theorem escChar_append_inj {c d : Char} {x y : List Char}
    (h : escChar c ++ x = escChar d ++ y) : c = d ∧ x = y := by
  have h1 := unescape1_escChar c x
  have h2 := unescape1_escChar d y
  rw [h] at h1
  rw [h1] at h2
  simp only [Option.some.injEq, Prod.mk.injEq] at h2
  exact ⟨h2.1, h2.2⟩

theorem escChars_quote_inj :
    ∀ (s t r₁ r₂ : List Char),
      escChars s ++ '"' :: r₁ = escChars t ++ '"' :: r₂ → s = t ∧ r₁ = r₂ := by
  intro s
  induction s with
  | nil =>
    intro t r₁ r₂ h
    cases t with
    | nil => simpa using h
    | cons d ds =>
      exfalso
      simp only [escChars, List.nil_append, List.append_assoc] at h
      exact escChar_ne_quote d _ _ h.symm
  | cons c cs ih =>
    intro t r₁ r₂ h
    cases t with
    | nil =>
      exfalso
      simp only [escChars, List.nil_append, List.append_assoc] at h
      exact escChar_ne_quote c _ _ h
    | cons d ds =>
      simp only [escChars, List.append_assoc] at h
      obtain ⟨hcd, htail⟩ := escChar_append_inj h
      obtain ⟨hs, hr⟩ := ih ds r₁ r₂ htail
      exact ⟨by rw [hcd, hs], hr⟩

theorem quoteStr_append_inj {a b : String} {r₁ r₂ : List Char}
    (h : quoteStr a ++ r₁ = quoteStr b ++ r₂) : a = b ∧ r₁ = r₂ := by
  simp only [quoteStr, List.cons_append, List.append_assoc, List.cons.injEq] at h
  obtain ⟨ha, hr⟩ := escChars_quote_inj a.data b.data r₁ r₂ h.2
  exact ⟨congrArg String.mk ha, hr⟩

theorem encodeItems_close_inj :
    ∀ (l₁ l₂ : List String),
      encodeItems l₁ ++ [']'] = encodeItems l₂ ++ [']'] → l₁ = l₂ := by
  intro l₁
  induction l₁ with
  | nil =>
    intro l₂ h
    cases l₂ with
    | nil => rfl
    | cons b bs =>
      exfalso
      cases bs with
      | nil =>
        simp only [encodeItems, List.nil_append, quoteStr, List.cons_append,
          List.cons.injEq] at h
        exact absurd h.1 (by decide)
      | cons b' bs' =>
        simp only [encodeItems, List.nil_append, quoteStr, List.cons_append,
          List.append_assoc, List.cons.injEq] at h
        exact absurd h.1 (by decide)
  | cons a as ih =>
    intro l₂ h
    cases l₂ with
    | nil =>
      exfalso
      cases as with
      | nil =>
        simp only [encodeItems, List.nil_append, quoteStr, List.cons_append,
          List.cons.injEq] at h
        exact absurd h.1 (by decide)
      | cons a' as' =>
        simp only [encodeItems, List.nil_append, quoteStr, List.cons_append,
          List.append_assoc, List.cons.injEq] at h
        exact absurd h.1 (by decide)
    | cons b bs =>
      cases as with
      | nil =>
        cases bs with
        | nil =>
          simp only [encodeItems] at h
          obtain ⟨hab, _⟩ := quoteStr_append_inj h
          rw [hab]
        | cons b' bs' =>
          exfalso
          simp only [encodeItems, List.append_assoc] at h
          obtain ⟨_, htail⟩ := quoteStr_append_inj h
          simp only [List.cons_append, List.cons.injEq] at htail
          exact absurd htail.1 (by decide)
      | cons a' as' =>
        cases bs with
        | nil =>
          exfalso
          simp only [encodeItems, List.append_assoc] at h
          obtain ⟨_, htail⟩ := quoteStr_append_inj h
          simp only [List.cons_append, List.cons.injEq] at htail
          exact absurd htail.1 (by decide)
        | cons b' bs' =>
          simp only [encodeItems, List.append_assoc] at h
          obtain ⟨hab, htail⟩ := quoteStr_append_inj h
          simp only [List.cons_append, List.cons.injEq, true_and] at htail
          have := ih (b' :: bs') (by simpa using htail)
          rw [hab, this]

theorem jsonStringifyStrings_inj {l₁ l₂ : List String}
    (h : jsonStringifyStrings l₁ = jsonStringifyStrings l₂) : l₁ = l₂ := by
  have hd : '[' :: (encodeItems l₁ ++ [']']) = '[' :: (encodeItems l₂ ++ [']']) :=
    congrArg String.data h
  simp only [List.cons.injEq, true_and] at hd
  exact encodeItems_close_inj l₁ l₂ hd

theorem jsonStringifyStrings_eq_iff (l₁ l₂ : List String) :
    jsonStringifyStrings l₁ = jsonStringifyStrings l₂ ↔ l₁ = l₂ :=
  ⟨jsonStringifyStrings_inj, fun h => by rw [h]⟩


theorem extractLiked_eq_spec (items : List Json) :
    extractLikedTrackUris items = specExtractReferences items := by
  induction items with
  | nil => rfl
  | cons item rest ih =>
    cases htrack : jsGet item "track" with
    | none =>
      simp [extractLikedTrackUris, specExtractReferences, List.filterMap_cons,
        htrack, Option.bind, ih]
    | some track =>
      cases huri : jsGet track "uri" with
      | none =>
        simp [extractLikedTrackUris, specExtractReferences, List.filterMap_cons,
          htrack, huri, Option.bind, ih]
      | some v =>
        cases v <;>
          simp [extractLikedTrackUris, specExtractReferences, List.filterMap_cons,
            htrack, huri, Option.bind, ih]
        split <;> simp [ih]

theorem extractPlaylist_eq_spec (items : List Json) :
    extractPlaylistTrackUris items = specExtractReferences items := by
  induction items with
  | nil => rfl
  | cons item rest ih =>
    cases htrack : jsGet item "track" with
    | none =>
      simp [extractPlaylistTrackUris, specExtractReferences, List.filterMap_cons,
        htrack, Option.bind, ih]
    | some track =>
      cases huri : jsGet track "uri" with
      | none =>
        simp [extractPlaylistTrackUris, specExtractReferences, List.filterMap_cons,
          htrack, huri, Option.bind, ih]
      | some v =>
        cases v <;>
          simp [extractPlaylistTrackUris, specExtractReferences, List.filterMap_cons,
            htrack, huri, Option.bind, ih]
        split <;> simp [ih]

theorem mem_spec_startsWith {u : String} {items : List Json}
    (h : u ∈ specExtractReferences items) : jsStartsWith u "spotify:track:" = true := by
  simp only [specExtractReferences, List.mem_filterMap] at h
  obtain ⟨item, _, hf⟩ := h
  split at hf
  · split at hf
    · next hcond => cases hf; exact hcond
    · exact absurd hf (by simp)
  · exact absurd hf (by simp)

theorem getRecentLikes_mem_startsWith {fetch : FetchOutcome} {L : List String}
    (hL : getRecentLikes fetch = some L) {u : String} (hu : u ∈ L) :
    jsStartsWith u "spotify:track:" = true := by
  unfold getRecentLikes at hL
  split at hL
  · exact absurd hL (by simp)
  · exact absurd hL (by simp)
  · split at hL
    · exact absurd hL (by simp)
    · split at hL
      · exact absurd hL (by simp)
      · split at hL
        · next heq =>
          rw [Option.some.injEq] at hL
          subst hL
          rw [extractLiked_eq_spec] at hu
          exact mem_spec_startsWith hu
        · exact absurd hL (by simp)

end Spotwik

namespace Spotwik

/-- Claim C9: the Likes Reader and the Playlist Reader apply identical
extraction and filtering to the response items: on every items array both
keep exactly the references that are strings beginning with
`spotify:track:`, silently drop every other shape, preserve the received
order, and therefore produce the same track list; both coincide with the
specification's order-preserving filter. -/
theorem likesReader_playlistReader_extraction_agree (items : List Json) :
    extractLikedTrackUris items = extractPlaylistTrackUris items ∧
    extractLikedTrackUris items = specExtractReferences items :=
  ⟨(extractLiked_eq_spec items).trans (extractPlaylist_eq_spec items).symm,
   extractLiked_eq_spec items⟩

/-- Claim C8: `getAccessToken` fails immediately, without reaching the
network call, when any credential is missing or empty; and a token is
returned only from a completed ok response whose parsed body carries a
non-blank `access_token` string field, so each of timeout, transport
error, non-2xx, malformed JSON, and missing or blank token yields null. -/
theorem getAccessToken_credential_and_token_guards :
    (∀ clientId clientSecret refreshToken fetch,
      (jsFalsy clientId || jsFalsy clientSecret || jsFalsy refreshToken) = true →
      getAccessToken clientId clientSecret refreshToken fetch = (none, false)) ∧
    (∀ clientId clientSecret refreshToken fetch tok,
      (getAccessToken clientId clientSecret refreshToken fetch).1 = some tok →
      ∃ status data, fetch = FetchOutcome.completed true status (some data) ∧
        jsGet data "access_token" = some (Json.str tok) ∧ jsTrim tok ≠ "") := by
  constructor
  · intro clientId clientSecret refreshToken fetch h
    simp [getAccessToken, h]
  · intro clientId clientSecret refreshToken fetch tok h
    by_cases hf : (jsFalsy clientId || jsFalsy clientSecret || jsFalsy refreshToken) = true
    · simp [getAccessToken, hf] at h
    · cases fetch with
      | timeout => simp [getAccessToken, hf] at h
      | netError => simp [getAccessToken, hf] at h
      | completed ok status body =>
        cases ok with
        | false => simp [getAccessToken, hf] at h
        | true =>
          cases body with
          | none => simp [getAccessToken, hf] at h
          | some data =>
            cases hag : jsGet data "access_token" with
            | none => simp [getAccessToken, hf, hag] at h
            | some v =>
              cases v with
              | str t =>
                simp [getAccessToken, hf, hag] at h
                obtain ⟨⟨hne, hnb⟩, htok⟩ := h
                subst htok
                exact ⟨status, data, rfl, hag, hnb⟩
              | null => simp [getAccessToken, hf, hag] at h
              | bool b => simp [getAccessToken, hf, hag] at h
              | num n => simp [getAccessToken, hf, hag] at h
              | arr l => simp [getAccessToken, hf, hag] at h
              | obj fields => simp [getAccessToken, hf, hag] at h


/-- Claim C8 witness: a missing client id short-circuits before the network
call, and a completed ok response whose body is `{access_token: "tok"}`
yields that non-blank token. -/
theorem getAccessToken_credential_and_token_guards_checks :
    getAccessToken none (some "secret") (some "refresh") FetchOutcome.timeout
      = (none, false) ∧
    ∃ status data,
      FetchOutcome.completed true 200 (some (Json.obj [("access_token", Json.str "tok")]))
        = FetchOutcome.completed true status (some data) ∧
      jsGet data "access_token" = some (Json.str "tok") ∧ jsTrim "tok" ≠ "" :=
  ⟨getAccessToken_credential_and_token_guards.1 none (some "secret") (some "refresh")
      FetchOutcome.timeout (by decide),
   getAccessToken_credential_and_token_guards.2 (some "id") (some "secret") (some "refresh")
      (FetchOutcome.completed true 200 (some (Json.obj [("access_token", Json.str "tok")])))
      "tok" (by decide)⟩

/-- Claim C6 counterexample: the configured count "2.7" is numeric but not
an integer; the claim says it resolves to the default 50, yet the code's
`parseInt` truncates it and the Likes Reader uses 2. -/
theorem trackCount_nonInteger_not_defaulted :
    resolvedTrackCount (some "2.7") = 2 ∧ resolvedTrackCount (some "2.7") ≠ 50 := by
  constructor
  · decide
  · decide

/-- Claim C6 (amended): an absent, empty, or unparseable (`NaN`) count
resolves to the default 50; a parsed value below 1 resolves to 50; a
parsed value above 50 clamps to 50 without error; a parsed value in 1-50
passes through - where `parseInt` truncates a non-integer numeral to its
leading integer part (for example "2.7" is used as 2) instead of
defaulting. -/
theorem trackCount_resolution :
    resolvedTrackCount none = 50 ∧
    (∀ s, parseIntBase10 s = none → resolvedTrackCount (some s) = 50) ∧
    resolvedTrackCount (some "") = 50 ∧
    (∀ s n, parseIntBase10 s = some n → n < 1 → resolvedTrackCount (some s) = 50) ∧
    (∀ s n, parseIntBase10 s = some n → 50 < n → resolvedTrackCount (some s) = 50) ∧
    (∀ s n, parseIntBase10 s = some n → 1 ≤ n → n ≤ 50 → resolvedTrackCount (some s) = n) := by
  refine ⟨by decide, ?_, by decide, ?_, ?_, ?_⟩
  · intro s h
    by_cases hs : s = ""
    · subst hs; decide
    · simp [resolvedTrackCount, hs, h]
  · intro s n h hlt
    by_cases hs : s = ""
    · subst hs; simp [parseIntBase10] at h
    · simp [resolvedTrackCount, hs, h, hlt]
  · intro s n h hgt
    by_cases hs : s = ""
    · subst hs; simp [parseIntBase10] at h
    · have h1 : ¬ n < 1 := by omega
      simp [resolvedTrackCount, hs, h, h1, hgt]
  · intro s n h h1 h50
    by_cases hs : s = ""
    · subst hs; simp [parseIntBase10] at h
    · have h1v : ¬ n < 1 := by omega
      have h50v : ¬ n > 50 := by omega
      simp [resolvedTrackCount, hs, h, h1v, h50v]

/-- Claim C6 witness: concrete resolutions - "abc" (NaN) resolves to 50,
"0" to 50, "100" clamps to 50, and "37" passes through. -/
theorem trackCount_resolution_checks :
    resolvedTrackCount none = 50 ∧
    resolvedTrackCount (some "abc") = 50 ∧
    resolvedTrackCount (some "") = 50 ∧
    resolvedTrackCount (some "0") = 50 ∧
    resolvedTrackCount (some "100") = 50 ∧
    resolvedTrackCount (some "37") = 37 :=
  ⟨trackCount_resolution.1,
   trackCount_resolution.2.1 "abc" (by decide),
   trackCount_resolution.2.2.1,
   trackCount_resolution.2.2.2.1 "0" 0 (by decide) (by decide),
   trackCount_resolution.2.2.2.2.1 "100" 100 (by decide) (by decide),
   trackCount_resolution.2.2.2.2.2 "37" 37 (by decide) (by decide) (by decide)⟩


/-- Claim C1: whenever the access token is obtained and the Likes Reader
succeeds with a structurally valid empty track list, `main` exits 0 and
skips every write operation: `updatePlaylist` is never invoked (the target
playlist is never cleared on zero qualifying likes), and no metadata
write is attempted either. -/
theorem emptyLikes_skips_all_writes (env : Env) (w : World) (tok : String)
    (htok : (getAccessToken env.clientId env.clientSecret env.refreshToken
      w.tokenFetch).1 = some tok)
    (hlikes : getRecentLikes w.likesFetch = some []) :
    mainRun env w = ⟨0, [], [], [], none⟩ := by
  unfold mainRun
  rw [htok, hlikes]
  rfl

/-- Claim C1 witness: a concrete run whose likes response is a valid empty
items array exits 0 with no writes. -/
theorem emptyLikes_skips_all_writes_check :
    mainRun ⟨some "id", some "secret", some "refresh", none, some "playlist"⟩
      ⟨FetchOutcome.completed true 200 (some (Json.obj [("access_token", Json.str "tok")])),
       FetchOutcome.completed true 200 (some (Json.obj [("items", Json.arr [])])),
       FetchOutcome.netError, FetchOutcome.timeout, FetchOutcome.timeout,
       FetchOutcome.timeout, "2026-01-11T14:32:45.123Z"⟩ = ⟨0, [], [], [], none⟩ :=
  emptyLikes_skips_all_writes
    ⟨some "id", some "secret", some "refresh", none, some "playlist"⟩
    ⟨FetchOutcome.completed true 200 (some (Json.obj [("access_token", Json.str "tok")])),
     FetchOutcome.completed true 200 (some (Json.obj [("items", Json.arr [])])),
     FetchOutcome.netError, FetchOutcome.timeout, FetchOutcome.timeout,
     FetchOutcome.timeout, "2026-01-11T14:32:45.123Z"⟩
    "tok" (by decide) (by decide)

/-- Claim C2: whenever the Likes Reader fails (returns null, covering
timeout, transport error, non-2xx, malformed JSON, and an unexpected
response shape alike), `main` exits 1 and `updatePlaylist` is never
invoked - a fetch failure is never treated as an empty likes list. -/
theorem likesFailure_never_clears (env : Env) (w : World) (tok : String)
    (htok : (getAccessToken env.clientId env.clientSecret env.refreshToken
      w.tokenFetch).1 = some tok)
    (hlikes : getRecentLikes w.likesFetch = none) :
    (mainRun env w).exitCode = 1 ∧ (mainRun env w).updateCalls = [] := by
  unfold mainRun
  rw [htok, hlikes]
  exact ⟨rfl, rfl⟩

/-- Claim C2 witness: a concrete run whose likes response times out exits 1
with no playlist write. -/
theorem likesFailure_never_clears_check :
    (mainRun ⟨some "id", some "secret", some "refresh", none, some "playlist"⟩
      ⟨FetchOutcome.completed true 200 (some (Json.obj [("access_token", Json.str "tok")])),
       FetchOutcome.timeout, FetchOutcome.netError, FetchOutcome.timeout,
       FetchOutcome.timeout, FetchOutcome.timeout, "2026-01-11T14:32:45.123Z"⟩).exitCode = 1 ∧
    (mainRun ⟨some "id", some "secret", some "refresh", none, some "playlist"⟩
      ⟨FetchOutcome.completed true 200 (some (Json.obj [("access_token", Json.str "tok")])),
       FetchOutcome.timeout, FetchOutcome.netError, FetchOutcome.timeout,
       FetchOutcome.timeout, FetchOutcome.timeout, "2026-01-11T14:32:45.123Z"⟩).updateCalls = [] :=
  likesFailure_never_clears
    ⟨some "id", some "secret", some "refresh", none, some "playlist"⟩
    ⟨FetchOutcome.completed true 200 (some (Json.obj [("access_token", Json.str "tok")])),
     FetchOutcome.timeout, FetchOutcome.netError, FetchOutcome.timeout,
     FetchOutcome.timeout, FetchOutcome.timeout, "2026-01-11T14:32:45.123Z"⟩
    "tok" (by decide) (by decide)


/-- Claim C7: when the fetched likes list contains a reference failing the
minimum-length sanity check, `main` aborts before any write - the playlist
writer and both metadata writers are never invoked - exits 1, and reports
the count of invalid entries. -/
theorem invalidTracks_fail_closed (env : Env) (w : World) (tok : String)
    (L : List String)
    (htok : (getAccessToken env.clientId env.clientSecret env.refreshToken
      w.tokenFetch).1 = some tok)
    (hlikes : getRecentLikes w.likesFetch = some L)
    (hbad : ∃ u ∈ L, ¬ (u.length > 14)) :
    (mainRun env w).exitCode = 1 ∧ (mainRun env w).updateCalls = [] ∧
    (mainRun env w).titleCalls = [] ∧ (mainRun env w).descCalls = [] ∧
    (mainRun env w).invalidReported
      = some (L.countP (fun u => decide (u.length ≤ 14))) := by
  have hlt : (L.filter (fun uri => decide (uri.length > 14))).length < L.length := by
    rw [List.length_filter_lt_length_iff_exists]
    obtain ⟨u, hu, hnu⟩ := hbad
    exact ⟨u, hu, by simpa using hnu⟩
  have hne : (L.filter (fun uri => decide (uri.length > 14))).length ≠ L.length :=
    Nat.ne_of_lt hlt
  have hrun : mainRun env w =
      ⟨1, [], [], [],
        some (L.length - (L.filter (fun uri => decide (uri.length > 14))).length)⟩ := by
    unfold mainRun
    rw [htok, hlikes]
    dsimp only
    rw [if_pos hne]
  rw [hrun]
  refine ⟨rfl, rfl, rfl, rfl, ?_⟩
  show some (L.length - (L.filter (fun uri => decide (uri.length > 14))).length)
      = some (L.countP (fun u => decide (u.length ≤ 14)))
  rw [Option.some.injEq]
  have hfl := List.countP_eq_length_filter
    (l := L) (p := fun uri => decide (uri.length > 14))
  have hsum : ∀ m : List String, m.countP (fun u => decide (u.length ≤ 14))
      + m.countP (fun u => decide (u.length > 14)) = m.length := by
    intro m
    induction m with
    | nil => rfl
    | cons a t ih =>
      simp only [List.countP_cons, List.length_cons]
      have e1 : (if (true : Bool) = true then 1 else 0) = 1 := rfl
      have e0 : (if (false : Bool) = true then 1 else 0) = 0 := rfl
      by_cases ha : a.length ≤ 14
      · have hb : ¬ (a.length > 14) := by omega
        rw [show (decide (a.length ≤ 14)) = true from decide_eq_true ha,
            show (decide (a.length > 14)) = false from decide_eq_false hb, e1, e0]
        omega
      · have hb : a.length > 14 := by omega
        rw [show (decide (a.length ≤ 14)) = false from decide_eq_false ha,
            show (decide (a.length > 14)) = true from decide_eq_true hb, e1, e0]
        omega
  have := hsum L
  omega

/-- Claim C7 witness: a likes response containing the malformed reference
`spotify:track:` (nothing after the prefix) aborts with exit 1, no writes,
and one invalid entry reported. -/
theorem invalidTracks_fail_closed_check :
    (mainRun ⟨some "id", some "secret", some "refresh", none, some "playlist"⟩
      ⟨FetchOutcome.completed true 200 (some (Json.obj [("access_token", Json.str "tok")])),
       FetchOutcome.completed true 200 (some (Json.obj [("items", Json.arr
         [Json.obj [("track", Json.obj [("uri", Json.str "spotify:track:abc")])],
          Json.obj [("track", Json.obj [("uri", Json.str "spotify:track:")])]])])),
       FetchOutcome.netError, FetchOutcome.timeout, FetchOutcome.timeout,
       FetchOutcome.timeout, "2026-01-11T14:32:45.123Z"⟩).exitCode = 1 ∧
    (mainRun ⟨some "id", some "secret", some "refresh", none, some "playlist"⟩
      ⟨FetchOutcome.completed true 200 (some (Json.obj [("access_token", Json.str "tok")])),
       FetchOutcome.completed true 200 (some (Json.obj [("items", Json.arr
         [Json.obj [("track", Json.obj [("uri", Json.str "spotify:track:abc")])],
          Json.obj [("track", Json.obj [("uri", Json.str "spotify:track:")])]])])),
       FetchOutcome.netError, FetchOutcome.timeout, FetchOutcome.timeout,
       FetchOutcome.timeout, "2026-01-11T14:32:45.123Z"⟩).invalidReported = some 1 := by
  have h := invalidTracks_fail_closed
    ⟨some "id", some "secret", some "refresh", none, some "playlist"⟩
    ⟨FetchOutcome.completed true 200 (some (Json.obj [("access_token", Json.str "tok")])),
     FetchOutcome.completed true 200 (some (Json.obj [("items", Json.arr
       [Json.obj [("track", Json.obj [("uri", Json.str "spotify:track:abc")])],
        Json.obj [("track", Json.obj [("uri", Json.str "spotify:track:")])]])])),
     FetchOutcome.netError, FetchOutcome.timeout, FetchOutcome.timeout,
     FetchOutcome.timeout, "2026-01-11T14:32:45.123Z"⟩
    "tok" ["spotify:track:abc", "spotify:track:"] (by decide) (by decide)
    ⟨"spotify:track:", by decide, by decide⟩
  exact ⟨h.1, by rw [h.2.2.2.2]; decide⟩


/-- Claim C3: for a valid non-empty likes list L, the playlist write is
performed exactly when the Playlist Reader failed or the fetched current
contents differ from L as ordered sequences; when performed,
`updatePlaylist` receives exactly L as its body, and when the current
contents equal L (same elements, same order) the writer is never
invoked. -/
theorem nonEmptyLikes_idempotent_write (env : Env) (w : World) (tok : String)
    (L : List String)
    (htok : (getAccessToken env.clientId env.clientSecret env.refreshToken
      w.tokenFetch).1 = some tok)
    (hlikes : getRecentLikes w.likesFetch = some L)
    (hvalid : ∀ u ∈ L, u.length > 14) (hne : L ≠ []) :
    (mainRun env w).updateCalls =
      (match getPlaylistTracks env.playlistId w.playlistFetch with
       | none => [L]
       | some current => if current = L then [] else [L]) := by
  have hfilter : L.filter (fun uri => decide (uri.length > 14)) = L :=
    List.filter_eq_self.mpr (fun u hu => by simpa using hvalid u hu)
  have hlen : ¬ (L.length = 0) := fun h => hne (List.length_eq_zero.mp h)
  unfold mainRun
  rw [htok, hlikes]
  dsimp only
  rw [hfilter, if_neg (fun h => h rfl), if_neg hlen]
  cases hcur : getPlaylistTracks env.playlistId w.playlistFetch with
  | none =>
    dsimp only
    cases updatePlaylist env.playlistId w.updateFetch <;> rfl
  | some current =>
    dsimp only
    by_cases hsame : current = L
    · rw [hsame, show decide (jsonStringifyStrings L ≠ jsonStringifyStrings L) = false
        by simp, if_pos rfl]
      rfl
    · have hneq : jsonStringifyStrings current ≠ jsonStringifyStrings L :=
        fun h => hsame (jsonStringifyStrings_inj h)
      rw [show decide (jsonStringifyStrings current ≠ jsonStringifyStrings L) = true
        from decide_eq_true hneq, if_neg hsame]
      cases updatePlaylist env.playlistId w.updateFetch <;> rfl

/-- Claim C3 witness: with likes `[spotify:track:abc]` and a failed
playlist read, the write is performed with exactly that list. -/
theorem nonEmptyLikes_idempotent_write_check :
    (mainRun ⟨some "id", some "secret", some "refresh", none, some "playlist"⟩
      ⟨FetchOutcome.completed true 200 (some (Json.obj [("access_token", Json.str "tok")])),
       FetchOutcome.completed true 200 (some (Json.obj [("items", Json.arr
         [Json.obj [("track", Json.obj [("uri", Json.str "spotify:track:abc")])]])])),
       FetchOutcome.netError, FetchOutcome.completed true 201 none,
       FetchOutcome.timeout, FetchOutcome.timeout,
       "2026-01-11T14:32:45.123Z"⟩).updateCalls = [["spotify:track:abc"]] := by
  have h := nonEmptyLikes_idempotent_write
    ⟨some "id", some "secret", some "refresh", none, some "playlist"⟩
    ⟨FetchOutcome.completed true 200 (some (Json.obj [("access_token", Json.str "tok")])),
     FetchOutcome.completed true 200 (some (Json.obj [("items", Json.arr
       [Json.obj [("track", Json.obj [("uri", Json.str "spotify:track:abc")])]])])),
     FetchOutcome.netError, FetchOutcome.completed true 201 none,
     FetchOutcome.timeout, FetchOutcome.timeout,
     "2026-01-11T14:32:45.123Z"⟩
    "tok" ["spotify:track:abc"] (by decide) (by decide)
    (by decide) (by decide)
  exact h


theorem mainRun_updateCalls_shape (env : Env) (w : World) :
    (mainRun env w).updateCalls = [] ∨
    ∃ L, getRecentLikes w.likesFetch = some L ∧
      (mainRun env w).updateCalls = [L.filter (fun uri => decide (uri.length > 14))] ∧
      (L.filter (fun uri => decide (uri.length > 14))).length ≠ 0 := by
  unfold mainRun
  cases (getAccessToken env.clientId env.clientSecret env.refreshToken w.tokenFetch).1 with
  | none => left; rfl
  | some tok =>
    cases hlikes : getRecentLikes w.likesFetch with
    | none => left; rfl
    | some L =>
      dsimp only
      by_cases hlen : (L.filter (fun uri => decide (uri.length > 14))).length ≠ L.length
      · rw [if_pos hlen]; left; rfl
      · rw [if_neg hlen]
        by_cases hzero : (L.filter (fun uri => decide (uri.length > 14))).length = 0
        · rw [if_pos hzero]; left; rfl
        · rw [if_neg hzero]
          cases hcur : getPlaylistTracks env.playlistId w.playlistFetch with
          | none =>
            dsimp only
            cases updatePlaylist env.playlistId w.updateFetch
            · exact Or.inr ⟨L, rfl, rfl, hzero⟩
            · exact Or.inr ⟨L, rfl, rfl, hzero⟩
          | some current =>
            dsimp only
            by_cases hsame :
                jsonStringifyStrings current = jsonStringifyStrings
                  (L.filter (fun uri => decide (uri.length > 14)))
            · rw [show decide (jsonStringifyStrings current ≠ jsonStringifyStrings
                (L.filter (fun uri => decide (uri.length > 14)))) = false
                from decide_eq_false (fun hc => hc hsame)]
              left; rfl
            · rw [show decide (jsonStringifyStrings current ≠ jsonStringifyStrings
                (L.filter (fun uri => decide (uri.length > 14)))) = true
                from decide_eq_true hsame]
              cases updatePlaylist env.playlistId w.updateFetch
              · exact Or.inr ⟨L, rfl, rfl, hzero⟩
              · exact Or.inr ⟨L, rfl, rfl, hzero⟩

/-- Claim C10: in every execution of `main`, every track list handed to the
destructive `updatePlaylist` is non-empty, and each of its elements starts
with `spotify:track:` and is strictly longer than 14 characters (a
non-empty id after the prefix). -/
theorem updatePlaylist_bodies_wellFormed (env : Env) (w : World) :
    ∀ l ∈ (mainRun env w).updateCalls, l ≠ [] ∧
      ∀ u ∈ l, jsStartsWith u "spotify:track:" = true ∧ u.length > 14 := by
  intro l hl
  rcases mainRun_updateCalls_shape env w with hnone | ⟨L, hlikes, hcalls, hzero⟩
  · rw [hnone] at hl; exact absurd hl (List.not_mem_nil l)
  · rw [hcalls] at hl
    rw [List.mem_singleton] at hl
    subst hl
    refine ⟨fun hnil => hzero (by rw [hnil]; rfl), ?_⟩
    intro u hu
    rw [List.mem_filter] at hu
    exact ⟨getRecentLikes_mem_startsWith hlikes hu.1, by simpa using hu.2⟩

/-- Claim C10 witness: a concrete run that does write has exactly one
well-formed non-empty body. -/
theorem updatePlaylist_bodies_wellFormed_check :
    ["spotify:track:abc"] ≠ ([] : List String) ∧
    ∀ u ∈ ["spotify:track:abc"], jsStartsWith u "spotify:track:" = true ∧
      u.length > 14 :=
  updatePlaylist_bodies_wellFormed
    ⟨some "id", some "secret", some "refresh", none, some "playlist"⟩
    ⟨FetchOutcome.completed true 200 (some (Json.obj [("access_token", Json.str "tok")])),
     FetchOutcome.completed true 200 (some (Json.obj [("items", Json.arr
       [Json.obj [("track", Json.obj [("uri", Json.str "spotify:track:abc")])]])])),
     FetchOutcome.netError, FetchOutcome.completed true 201 none,
     FetchOutcome.timeout, FetchOutcome.timeout, "2026-01-11T14:32:45.123Z"⟩
    ["spotify:track:abc"] (by decide)


/-- Claim C4 evaluated at a failing input: a successful run whose playlist
already matches the likes (write skipped as unchanged, exit 0, so not a
terminal failure) never attempts the computed display name - only the
description is written - and the source issues name and description
through two separate single-field requests (`updatePlaylistTitle` and
`updatePlaylistDescription`), never one atomic request. -/
theorem noChange_run_skips_name_metadata :
    mainRun ⟨some "id", some "secret", some "refresh", none, some "playlist"⟩
      ⟨FetchOutcome.completed true 200 (some (Json.obj [("access_token", Json.str "tok")])),
       FetchOutcome.completed true 200 (some (Json.obj [("items", Json.arr
         [Json.obj [("track", Json.obj [("uri", Json.str "spotify:track:abc")])]])])),
       FetchOutcome.completed true 200 (some (Json.obj [("items", Json.arr
         [Json.obj [("track", Json.obj [("uri", Json.str "spotify:track:abc")])]])])),
       FetchOutcome.timeout, FetchOutcome.completed true 200 none,
       FetchOutcome.completed true 200 none, "2026-01-11T14:32:45.123Z"⟩ =
    ⟨0, [], [], ["Checked: 2026-01-11 14:32:45 UTC"], none⟩ := by
  decide

/-- Claim C5 evaluated at a failing input: a successful changed run with
one synced track writes the name `LAST1LIKED` but a description labelled
`Checked: <timestamp> UTC`, which does not begin with `Last sync:` as the
claim (and the repository's own tests) require. -/
theorem success_run_description_label_is_checked :
    mainRun ⟨some "id", some "secret", some "refresh", none, some "playlist"⟩
      ⟨FetchOutcome.completed true 200 (some (Json.obj [("access_token", Json.str "tok")])),
       FetchOutcome.completed true 200 (some (Json.obj [("items", Json.arr
         [Json.obj [("track", Json.obj [("uri", Json.str "spotify:track:abc")])]])])),
       FetchOutcome.netError, FetchOutcome.completed true 201 none,
       FetchOutcome.completed true 200 none, FetchOutcome.completed true 200 none,
       "2026-01-11T14:32:45.123Z"⟩ =
    ⟨0, [["spotify:track:abc"]], ["LAST1LIKED"],
     ["Checked: 2026-01-11 14:32:45 UTC"], none⟩ ∧
    jsStartsWith "Checked: 2026-01-11 14:32:45 UTC" "Last sync:" = false := by
  exact ⟨by decide, by decide⟩

end Spotwik
